import Mathlib

/-!
Verification of the search-orchestration and history-snapshot pipeline of a
Telegram movie-search bot (source: main.py, models.py, config.py).

The external world (TMDB HTTP endpoints) is modelled as an oracle structure
`Provider`; a call that fails at transport level or with a non-success HTTP
status is an oracle answer of `none`, matching the try/except pattern of
the source that logs and returns None.  The SQLite
database is modelled explicitly as lists of rows (state passing).  Timestamps
are abstract naturals.  The TMDB vote_average float is modelled as a rational;
no claim computes with it.
-/

namespace MovieBot

/- Bot settings from config.py (class Config). -/
namespace Config

def MAX_HISTORY_ENTRIES : Nat := 10

def MOVIES_PER_PAGE : Nat := 5

end Config

/-- One (id, name) pair from the TMDB /genre/movie/list response. -/
structure Genre where
  id : Nat
  name : String
deriving DecidableEq, Repr

/-- A partial movie record from a search/discover page: the orchestrator only
reads the id field from it; the title is carried for fidelity. -/
structure Candidate where
  id : Nat
  title : String
deriving DecidableEq, Repr

/-- The full movie record returned by GET /movie/movie_id, restricted to the
fields the source reads (format_movie_message and save_search_history).
Fields the source reads with `.get(key, default)` are total here: the typed
view the design notes of the spec require at the client boundary. -/
structure MovieDetails where
  id : Nat
  title : String
  original_title : String
  overview : String
  release_date : String
  vote_average : ℚ
  vote_count : Nat
  genres : List Genre
  adult : Bool
  poster_path : String
  budget : Nat
  revenue : Nat
deriving DecidableEq, Repr

/-- A row of the SearchHistory table (models.py class SearchHistory).
`rowid` is the auto-increment primary key peewee assigns on create. -/
structure SearchHistoryRow where
  rowid : Nat
  user : Nat
  search_type : String
  query : String
  result_count : Nat
  created_at : Nat
deriving DecidableEq, Repr

/-- A row of the MovieResult table (models.py class MovieResult); `search`
is the foreign key to the owning SearchHistory row. -/
structure MovieResultRow where
  search : Nat
  movie_id : Nat
  title : String
  original_title : String
  overview : String
  release_date : String
  vote_average : ℚ
  vote_count : Nat
  genre_names : String
  adult : Bool
  poster_path : String
  budget : Nat
  revenue : Nat
deriving DecidableEq, Repr

/-- The SQLite database state: the two tables the pipeline touches, plus the
next auto-increment id for SearchHistory. -/
structure DB where
  nextEntryId : Nat
  history : List SearchHistoryRow
  movieResults : List MovieResultRow
deriving DecidableEq, Repr

/-- The query-string parameters the source puts in the `params` dict of a
GET /discover/movie request (beyond api_key/language, which are constant). -/
structure DiscoverParams where
  sort_by : String
  vote_count_gte : Option Nat
  vote_average_gte : Option ℚ
  budget_gte : Option Nat
  with_genres : Option Nat
  page : Nat
deriving DecidableEq, Repr

/-- Oracle for the TMDB provider: each field is one endpoint; `none` is a
transport failure or non-2xx status (the source logs and returns None). -/
structure Provider where
  searchByTitle : String → Nat → Option (List Candidate)
  discover : DiscoverParams → Option (List Candidate)
  genreList : Option (List Genre)
  getMovieDetails : Nat → Option MovieDetails

/-- What a command handler sends back to the chat adapter. -/
inductive SearchOutcome where
  /-- usage/parse-error message was sent; no provider call, no persistence -/
  | invalidQuery : SearchOutcome
  /-- the not-found message was sent -/
  | noResults : SearchOutcome
  /-- one formatted message per movie was sent (possibly zero) -/
  | results : List MovieDetails → SearchOutcome
deriving DecidableEq, Repr

/-- What the plain-text quick-search handler (handle_message) sends back. -/
inductive MessageOutcome where
  /-- message of length ≤ 2: the handler does nothing at all -/
  | ignored : MessageOutcome
  /-- search call failed or returned an empty page: not-found message -/
  | notFound : MessageOutcome
  /-- detail fetch for the top candidate failed: error message, no save -/
  | detailsFailed : MessageOutcome
  /-- the movie message was sent (after saving history) -/
  | sent : MovieDetails → MessageOutcome
deriving DecidableEq, Repr

/-- Python str.lower restricted to the ASCII and Cyrillic letters this bot
handles (TMDB ru-RU locale): A-Z, А-Я (U+0410..U+042F) and Ё (U+0401). -/
def pyLowerChar (c : Char) : Char :=
  if c.toNat ≥ 0x41 ∧ c.toNat ≤ 0x5A then Char.ofNat (c.toNat + 32)
  else if c.toNat ≥ 0x410 ∧ c.toNat ≤ 0x42F then Char.ofNat (c.toNat + 32)
  else if c.toNat = 0x401 then Char.ofNat 0x451
  else c

/-- Lower-case a string, as a character list. -/
def pyLower (s : String) : List Char := s.data.map pyLowerChar

/-- Whether `a` is an initial segment of `b` (Boolean, on char lists). -/
def leadsList : List Char → List Char → Bool
  | [], _ => true
  | _ :: _, [] => false
  | a :: as, b :: bs => a == b && leadsList as bs

/-- The Python in-operator on strings: contiguous-substring test. -/
def isSubstrList (needle : List Char) : List Char → Bool
  | [] => leadsList needle []
  | b :: bs => leadsList needle (b :: bs) || isSubstrList needle bs

/-- The per-genre test in get_genre_id: the lowered genre_name contained
in the lowered display name of the genre. -/
def genreMatches (genre_name : String) (g : Genre) : Bool :=
  isSubstrList (pyLower genre_name) (pyLower g.name)

/-- MovieBot.get_genre_id (main.py lines 163-181): fetch the genre list and
return the id of the first genre whose display name contains `genre_name`
case-insensitively; None when no genre matches or the fetch failed. -/
def get_genre_id (fetched : Option (List Genre)) (genre_name : String) : Option Nat :=
  match fetched with
  | none => none
  | some genres => (genres.find? (fun g => genreMatches genre_name g)).map (fun g => g.id)

/-- The shared genre-filter snippet of search_movies_by_rating and
search_movies_by_budget: `if genre:` then resolve it, and `if genre_id:`
add with_genres to the params — Python truthiness makes an empty string,
None, and genre id 0 all fall through to the unfiltered params. -/
def withGenreFilter (fetched : Option (List Genre)) (genre : Option String)
    (base : DiscoverParams) : DiscoverParams :=
  match genre with
  | none => base
  | some g =>
    if g = "" then base
    else
      match get_genre_id fetched g with
      | none => base
      | some gid => if gid = 0 then base else { base with with_genres := some gid }

/-- MovieBot.search_movies_by_rating (main.py lines 107-131): discover page
sorted by descending rating, vote count ≥ 100, rating ≥ min_rating, with the
optional genre filter. -/
def search_movies_by_rating (p : Provider) (min_rating : ℚ) (genre : Option String)
    (page : Nat) : Option (List Candidate) :=
  p.discover (withGenreFilter p.genreList genre
    { sort_by := "vote_average.desc"
      vote_count_gte := some 100
      vote_average_gte := some min_rating
      budget_gte := none
      with_genres := none
      page := page })

/-- MovieBot.search_movies_by_budget (main.py lines 133-161): discover page
sorted ascending (low) or descending (high) by budget, budget ≥ 1000, with
the optional genre filter. -/
def search_movies_by_budget (p : Provider) (budget_type : String) (genre : Option String)
    (page : Nat) : Option (List Candidate) :=
  p.discover (withGenreFilter p.genreList genre
    { sort_by := if budget_type = "low" then "budget.asc" else "budget.desc"
      vote_count_gte := none
      vote_average_gte := none
      budget_gte := some 1000
      with_genres := none
      page := page })

/-- The page cap in every command handler: the first MOVIES_PER_PAGE
candidates of the returned page. -/
def pageLimit (page : List Candidate) : List Candidate :=
  page.take Config.MOVIES_PER_PAGE

/-- The detail fan-out loop of every command handler: fetch details for each
candidate, keep only the successful fetches, in order. -/
def detailFanout (fetch : Nat → Option MovieDetails) (movies : List Candidate) :
    List MovieDetails :=
  movies.filterMap (fun m => fetch m.id)

/-- The MovieResult.create call in save_search_history: the snapshot row built
from one detailed movie record, owned by entry `entryId`. -/
def movieResultOf (entryId : Nat) (m : MovieDetails) : MovieResultRow :=
  { search := entryId
    movie_id := m.id
    title := m.title
    original_title := m.original_title
    overview := m.overview
    release_date := m.release_date
    vote_average := m.vote_average
    vote_count := m.vote_count
    genre_names := String.intercalate ", " (m.genres.map (fun g => g.name))
    adult := m.adult
    poster_path := m.poster_path
    budget := m.budget
    revenue := m.revenue }

/-- MovieBot.save_search_history (main.py lines 229-254), successful path:
inside one transaction, create one SearchHistory row with
result_count = len(results) and one MovieResult row per movie, in order. -/
def saveSearchHistory (db : DB) (user : Nat) (search_type query : String)
    (results : List MovieDetails) (now : Nat) : DB :=
  let entryId := db.nextEntryId
  { nextEntryId := entryId + 1
    history := db.history ++
      [{ rowid := entryId, user := user, search_type := search_type,
         query := query, result_count := results.length, created_at := now }]
    movieResults := db.movieResults ++ results.map (movieResultOf entryId) }

/-- save_search_history with fallible row inserts.  The writes inside the
`with database.atomic():` block are numbered 0 (the SearchHistory create) and
1..len(results) (the MovieResult creates); `failAt k` says insert k raises.
the peewee atomic() context rolls the whole transaction back on an
escaping exception,
so any failure leaves the database unchanged. -/
def saveSearchHistoryAtomic (db : DB) (user : Nat) (search_type query : String)
    (results : List MovieDetails) (now : Nat) (failAt : Nat → Bool) : DB :=
  if (List.range (results.length + 1)).any failAt then db
  else saveSearchHistory db user search_type query results now

/-- MovieBot.movie_search_command (main.py lines 256-301). -/
def movie_search_command (p : Provider) (db : DB) (user : Nat) (args : List String)
    (now : Nat) : DB × SearchOutcome :=
  if args.isEmpty then (db, .invalidQuery)
  else
    let query := String.intercalate " " args
    match p.searchByTitle query 1 with
    | none => (db, .noResults)
    | some page =>
      if page.isEmpty then (db, .noResults)
      else
        let detailed := detailFanout p.getMovieDetails (pageLimit page)
        (saveSearchHistory db user "title" query detailed now, .results detailed)

/-- The query string saved by movie_by_rating_command (numeric formatting of
the float is abstracted by toString). -/
def ratingQueryStr (min_rating : ℚ) (genre : Option String) : String :=
  "rating>" ++ toString min_rating ++
    (match genre with | some g => " genre:" ++ g | none => "")

/-- MovieBot.movie_by_rating_command (main.py lines 303-355).  `parseFloat`
models the Python float() parse: none is the ValueError branch. -/
def movie_by_rating_command (p : Provider) (parseFloat : String → Option ℚ)
    (db : DB) (user : Nat) (args : List String) (now : Nat) : DB × SearchOutcome :=
  match args with
  | [] => (db, .invalidQuery)
  | a0 :: rest =>
    match parseFloat a0 with
    | none => (db, .invalidQuery)
    | some min_rating =>
      let genre := rest.head?
      match search_movies_by_rating p min_rating genre 1 with
      | none => (db, .noResults)
      | some page =>
        if page.isEmpty then (db, .noResults)
        else
          let detailed := detailFanout p.getMovieDetails (pageLimit page)
          (saveSearchHistory db user "rating" (ratingQueryStr min_rating genre) detailed now,
           .results detailed)

/-- The query string saved by handle_budget_search. -/
def budgetQueryStr (budget_type : String) (genre : Option String) : String :=
  "budget:" ++ budget_type ++
    (match genre with | some g => " genre:" ++ g | none => "")

/-- MovieBot.handle_budget_search (main.py lines 365-407), the common handler
behind low_budget_movie_command and high_budget_movie_command. -/
def handle_budget_search (p : Provider) (db : DB) (user : Nat) (args : List String)
    (budget_type : String) (now : Nat) : DB × SearchOutcome :=
  let genre := if args.isEmpty then none else some (String.intercalate " " args)
  match search_movies_by_budget p budget_type genre 1 with
  | none => (db, .noResults)
  | some page =>
    if page.isEmpty then (db, .noResults)
    else
      let detailed := detailFanout p.getMovieDetails (pageLimit page)
      (saveSearchHistory db user ("budget_" ++ budget_type)
        (budgetQueryStr budget_type genre) detailed now, .results detailed)

/-- MovieBot.handle_message (main.py lines 504-540): quick search on plain
text.  Messages of length ≤ 2 are ignored entirely; otherwise search by
title, take the FIRST candidate only, fetch its details, and save a
one-movie history entry only when that fetch succeeds. -/
def handle_message (p : Provider) (db : DB) (user : Nat) (text : String)
    (now : Nat) : DB × MessageOutcome :=
  if text.length > 2 then
    match p.searchByTitle text 1 with
    | none => (db, .notFound)
    | some page =>
      match page with
      | [] => (db, .notFound)
      | m :: _ =>
        match p.getMovieDetails m.id with
        | some details =>
          (saveSearchHistory db user "title" text [details] now, .sent details)
        | none => (db, .detailsFailed)
  else (db, .ignored)

/-- MovieBot.clear_history (main.py lines 492-502): bulk
`SearchHistory.delete().where(user).execute()`.  A peewee bulk delete issues
one DELETE on the SearchHistory table only; the MovieResult foreign key has
no ON DELETE action and SQLite foreign-key enforcement is not enabled, so
MovieResult rows are untouched.  Returns the number of rows deleted. -/
def clear_history (db : DB) (user : Nat) : DB × Nat :=
  (({ db with history := db.history.filter (fun r => !(r.user == user)) } : DB),
   (db.history.filter (fun r => r.user == user)).length)

/-- The /history query (main.py lines 414-418): the entries of one user, newest
first, capped at a limit. -/
def listRecent (db : DB) (user : Nat) (limit : Nat) : List SearchHistoryRow :=
  ((db.history.filter (fun r => r.user == user)).mergeSort
    (fun a b => decide (b.created_at ≤ a.created_at))).take limit

end MovieBot

namespace MovieBot

lemma mem_history_saveSearchHistory {e : SearchHistoryRow} {db : DB} {user : Nat}
    {t q : String} {rs : List MovieDetails} {now : Nat}
    (h : e ∈ (saveSearchHistory db user t q rs now).history) :
    e ∈ db.history ∨ e.result_count = rs.length := by
  simp [saveSearchHistory] at h
  rcases h with h | h
  · exact Or.inl h
  · subst h; exact Or.inr rfl

lemma detailFanout_length_le (f : Nat → Option MovieDetails) (ms : List Candidate) :
    (detailFanout f ms).length ≤ ms.length :=
  List.length_filterMap_le _ _

lemma pageLimit_length_le (page : List Candidate) :
    (pageLimit page).length ≤ Config.MOVIES_PER_PAGE := by
  simp [pageLimit, List.length_take, Config.MOVIES_PER_PAGE]

lemma detailFanout_pageLimit_le (f : Nat → Option MovieDetails) (page : List Candidate) :
    (detailFanout f (pageLimit page)).length ≤ Config.MOVIES_PER_PAGE :=
  le_trans (detailFanout_length_le _ _) (pageLimit_length_le _)

lemma detailFanout_length_add (f : Nat → Option MovieDetails) (ms : List Candidate) :
    (detailFanout f ms).length + (ms.filter (fun m => (f m.id).isNone)).length = ms.length := by
  induction ms with
  | nil => rfl
  | cons m t ih =>
    cases h : f m.id with
    | none => simp [detailFanout, List.filterMap_cons, List.filter_cons, h] at ih ⊢; omega
    | some d => simp [detailFanout, List.filterMap_cons, List.filter_cons, h] at ih ⊢; omega

lemma detailFanout_map_some (f : Nat → Option MovieDetails) (ms : List Candidate) :
    (detailFanout f ms).map Option.some
      = (ms.map (fun m => f m.id)).filter Option.isSome := by
  induction ms with
  | nil => rfl
  | cons m t ih =>
    cases h : f m.id with
    | none => simp [detailFanout, List.filterMap_cons, h] at ih ⊢; exact ih
    | some d => simp [detailFanout, List.filterMap_cons, h] at ih ⊢; exact ih

end MovieBot

namespace MovieBot

/-- An empty database, for concrete witnesses. -/
def db0 : DB := { nextEntryId := 0, history := [], movieResults := [] }

/-- A concrete candidate, for concrete witnesses. -/
def cand (n : Nat) : Candidate := { id := n, title := "X" }

/-- A concrete full movie record, for concrete witnesses. -/
def mdet (n : Nat) : MovieDetails :=
  { id := n, title := "T", original_title := "T", overview := "", release_date := "",
    vote_average := 0, vote_count := 0, genres := [], adult := false,
    poster_path := "", budget := 0, revenue := 0 }

/-- A provider whose title search returns one candidate but whose every
detail fetch fails. -/
def pAllDetailsFail : Provider :=
  { searchByTitle := fun _ _ => some [cand 1]
    discover := fun _ => none
    genreList := none
    getMovieDetails := fun _ => none }

/-- A provider whose title search returns an empty page. -/
def pEmptyPage : Provider :=
  { searchByTitle := fun _ _ => some []
    discover := fun _ => none
    genreList := none
    getMovieDetails := fun _ => none }

/-- A provider whose title search returns one candidate and whose detail
fetches all succeed. -/
def pAllOk : Provider :=
  { searchByTitle := fun _ _ => some [cand 1]
    discover := fun _ => none
    genreList := none
    getMovieDetails := fun n => some (mdet n) }

/-- Claim C1 counterexample: a non-empty candidate page on which every
detail fetch fails.  The claim says the orchestrator reports NoResults and
writes nothing; in fact movie_search_command (main.py line 286) calls
save_search_history unconditionally once the page is non-empty, so a
SearchHistoryEntry (with result_count = 0) IS written, and the outcome is
an empty result set, not the NoResults message. -/
theorem claim_C1_counterexample :
    pAllDetailsFail.searchByTitle "q" 1 = some [cand 1] ∧
    pAllDetailsFail.getMovieDetails (cand 1).id = none ∧
    (movie_search_command pAllDetailsFail db0 7 ["q"] 0).1.history.length = 1 ∧
    (movie_search_command pAllDetailsFail db0 7 ["q"] 0).2 ≠ SearchOutcome.noResults := by
  refine ⟨rfl, rfl, ?_, ?_⟩ <;> decide

/-- Claim C1 (amended): when the initial search call fails or returns an
empty candidate page, the orchestrator reports NoResults and the History
Store is not written; but when the page is non-empty and every detail fetch
fails, a SearchHistoryEntry with result_count = 0 and no MovieSnapshot rows
is written, and the empty result set (not NoResults) is reported. -/
theorem claim_C1_amended (p : Provider) (db : DB) (user : Nat) (args : List String)
    (now : Nat) (hargs : args ≠ []) :
    ((p.searchByTitle (String.intercalate " " args) 1 = none ∨
      p.searchByTitle (String.intercalate " " args) 1 = some []) →
      movie_search_command p db user args now = (db, SearchOutcome.noResults)) ∧
    (∀ page, p.searchByTitle (String.intercalate " " args) 1 = some page → page ≠ [] →
      (∀ c ∈ pageLimit page, p.getMovieDetails c.id = none) →
      (movie_search_command p db user args now).1.history =
        db.history ++ [{ rowid := db.nextEntryId, user := user, search_type := "title",
                         query := String.intercalate " " args, result_count := 0,
                         created_at := now }] ∧
      (movie_search_command p db user args now).1.movieResults = db.movieResults ∧
      (movie_search_command p db user args now).2 = SearchOutcome.results []) := by
  have hne : args.isEmpty = false := by
    cases args with
    | nil => exact absurd rfl hargs
    | cons a t => rfl
  constructor
  · rintro (h | h) <;> simp [movie_search_command, hne, h]
  · intro page hp hpage hall
    have hfail : detailFanout p.getMovieDetails (pageLimit page) = [] := by
      unfold detailFanout
      exact List.filterMap_eq_nil_iff.mpr hall
    have hpe : page.isEmpty = false := by
      cases page with
      | nil => exact absurd rfl hpage
      | cons a t => rfl
    simp [movie_search_command, hne, hp, hpe, hfail, saveSearchHistory]

/-- Claim C1 amended, witnessed at a concrete input: an empty page reports
NoResults and writes nothing. -/
theorem claim_C1_witness :
    movie_search_command pEmptyPage db0 1 ["a"] 0 = (db0, SearchOutcome.noResults) :=
  (claim_C1_amended pEmptyPage db0 1 ["a"] 0 (by decide)).1 (Or.inr rfl)

/-- Claim C2: the snapshot write creates a SearchHistoryEntry whose
result_count equals the number of MovieSnapshot rows owned by it, and those
rows carry the input movies in input order. -/
theorem claim_C2 (db : DB) (user : Nat) (t q : String) (results : List MovieDetails)
    (now : Nat) (hfresh : ∀ m ∈ db.movieResults, m.search ≠ db.nextEntryId) :
    ({ rowid := db.nextEntryId, user := user, search_type := t, query := q,
       result_count := results.length, created_at := now } : SearchHistoryRow)
      ∈ (saveSearchHistory db user t q results now).history ∧
    results.length =
      ((saveSearchHistory db user t q results now).movieResults.filter
        (fun m => m.search == db.nextEntryId)).length ∧
    ((saveSearchHistory db user t q results now).movieResults.filter
        (fun m => m.search == db.nextEntryId)).map (fun m => m.movie_id)
      = results.map (fun r => r.id) := by
  have hold : db.movieResults.filter (fun m => m.search == db.nextEntryId) = [] := by
    refine List.filter_eq_nil_iff.mpr (fun m hm => ?_)
    simpa using hfresh m hm
  have hnew : (results.map (movieResultOf db.nextEntryId)).filter
      (fun m => m.search == db.nextEntryId) = results.map (movieResultOf db.nextEntryId) := by
    refine List.filter_eq_self.mpr (fun m hm => ?_)
    rcases List.mem_map.mp hm with ⟨r, _, rfl⟩
    simp [movieResultOf]
  constructor
  · simp [saveSearchHistory]
  constructor
  · simp [saveSearchHistory, List.filter_append, hold, hnew]
  · simp [saveSearchHistory, List.filter_append, hold, hnew, List.map_map]
    intro a _
    simp [movieResultOf]

/-- Claim C2, witnessed at a concrete input: an empty database and a
one-movie result list. -/
theorem claim_C2_witness :
    ({ rowid := 0, user := 7, search_type := "title", query := "q",
       result_count := 1, created_at := 3 } : SearchHistoryRow)
      ∈ (saveSearchHistory db0 7 "title" "q" [mdet 9] 3).history ∧
    (1 : Nat) =
      ((saveSearchHistory db0 7 "title" "q" [mdet 9] 3).movieResults.filter
        (fun m => m.search == db0.nextEntryId)).length ∧
    ((saveSearchHistory db0 7 "title" "q" [mdet 9] 3).movieResults.filter
        (fun m => m.search == db0.nextEntryId)).map (fun m => m.movie_id)
      = [mdet 9].map (fun r => r.id) :=
  claim_C2 db0 7 "title" "q" [mdet 9] 3 (by decide)

end MovieBot

namespace MovieBot

/-- A database holding one history entry (rowid 0, user 7) that owns one
snapshot row, for concrete theorems about deletion. -/
def dbOneEntry : DB :=
  { nextEntryId := 1
    history := [{ rowid := 0, user := 7, search_type := "title", query := "q",
                  result_count := 1, created_at := 0 }]
    movieResults := [movieResultOf 0 (mdet 9)] }

/-- Claim C3 counterexample: clear_history deletes the only entry of user 7
(rowid 0) and reports 1 deleted, yet the MovieSnapshot row owned by that
entry survives and still references rowid 0 — the bulk delete issues one
DELETE on SearchHistory only (the foreign key has no ON DELETE action and
SQLite enforcement is off), so there is no cascade. -/
theorem claim_C3_counterexample :
    (clear_history dbOneEntry 7).2 = 1 ∧
    (clear_history dbOneEntry 7).1.history = [] ∧
    (clear_history dbOneEntry 7).1.movieResults ≠ [] ∧
    ((clear_history dbOneEntry 7).1.movieResults.map (fun m => m.search)) = [0] := by
  decide

/-- Claim C3 (amended): deleteAll removes every SearchHistoryEntry owned by
the user but does NOT delete any MovieSnapshot row; snapshots owned by the
deleted entries remain in the table, orphaned. -/
theorem claim_C3_amended (db : DB) (user : Nat) :
    (clear_history db user).1.movieResults = db.movieResults ∧
    (∀ r ∈ (clear_history db user).1.history, r.user ≠ user) ∧
    (∀ r ∈ db.history, r.user ≠ user → r ∈ (clear_history db user).1.history) := by
  refine ⟨rfl, ?_, ?_⟩
  · intro r hr
    have h := (List.mem_filter.mp hr).2
    simpa using h
  · intro r hr hne
    exact List.mem_filter.mpr ⟨hr, by simpa using hne⟩

/-- Claim C3 amended, witnessed at a concrete input: deleting the (empty)
history of user 8 leaves the entry of user 7 and all snapshot rows in place. -/
theorem claim_C3_witness :
    (clear_history dbOneEntry 8).1.movieResults = dbOneEntry.movieResults ∧
    ({ rowid := 0, user := 7, search_type := "title", query := "q",
       result_count := 1, created_at := 0 } : SearchHistoryRow)
      ∈ (clear_history dbOneEntry 8).1.history :=
  ⟨(claim_C3_amended dbOneEntry 8).1,
   (claim_C3_amended dbOneEntry 8).2.2 _ (by decide) (by decide)⟩

/-- Claim C4: clear_history returns the number of entries the user owned
immediately before the call, a listRecent query afterwards returns no
entries, and clearing an already-empty history returns 0. -/
theorem claim_C4 (db : DB) (user N : Nat) :
    (clear_history db user).2 = (db.history.filter (fun r => r.user == user)).length ∧
    listRecent (clear_history db user).1 user N = [] ∧
    (db.history.filter (fun r => r.user == user) = [] → (clear_history db user).2 = 0) := by
  refine ⟨rfl, ?_, ?_⟩
  · have h : ((clear_history db user).1.history.filter (fun r => r.user == user)) = [] := by
      refine List.filter_eq_nil_iff.mpr (fun r hr => ?_)
      have h2 := (List.mem_filter.mp hr).2
      simp at h2 ⊢
      exact h2
    simp [listRecent, h, List.mergeSort]
  · intro h
    simp [clear_history, h]

/-- Claim C4, witnessed at a concrete input: the empty database. -/
theorem claim_C4_witness :
    (clear_history db0 5).2 = (db0.history.filter (fun r => r.user == 5)).length ∧
    listRecent (clear_history db0 5).1 5 10 = [] ∧
    (clear_history db0 5).2 = 0 :=
  ⟨(claim_C4 db0 5 10).1, (claim_C4 db0 5 10).2.1, (claim_C4 db0 5 10).2.2 (by decide)⟩

/-- Claim C5: genre resolution returns the id of the first genre (in
provider list order) whose display name contains the requested name as a
case-insensitive substring; it returns none when no genre matches; and a
none resolution leaves the discover request without a genre filter — the
search is still issued, never failed. -/
theorem claim_C5 (p : Provider) (gl pre post : List Genre) (g : Genre)
    (name : String) (mr : ℚ) :
    ((∀ g2 ∈ pre, genreMatches name g2 = false) → genreMatches name g = true →
      get_genre_id (some (pre ++ g :: post)) name = some g.id) ∧
    ((∀ g2 ∈ gl, genreMatches name g2 = false) → get_genre_id (some gl) name = none) ∧
    (get_genre_id p.genreList name = none →
      search_movies_by_rating p mr (some name) 1 =
        p.discover { sort_by := "vote_average.desc", vote_count_gte := some 100,
                     vote_average_gte := some mr, budget_gte := none,
                     with_genres := none, page := 1 }) := by
  refine ⟨?_, ?_, ?_⟩
  · intro hpre hg
    induction pre with
    | nil => simp [get_genre_id, List.find?_cons_of_pos _ hg]
    | cons a t ih =>
      have ha : genreMatches name a = false := hpre a (by simp)
      have ih2 := ih (fun g2 h2 => hpre g2 (by simp [h2]))
      rw [List.cons_append]
      simp only [get_genre_id] at ih2 ⊢
      rw [List.find?_cons_of_neg _ (by simp [ha])]
      exact ih2
  · intro hall
    have h : gl.find? (fun g2 => genreMatches name g2) = none :=
      List.find?_eq_none.mpr (fun x hx => by simp [hall x hx])
    simp [get_genre_id, h]
  · intro hnone
    unfold search_movies_by_rating withGenreFilter
    by_cases he : name = ""
    · simp [he]
    · simp [he, hnone]

/-- Claim C5, witnessed at concrete inputs: resolving the Cyrillic stem
matches the full genre name case-insensitively and first-match-wins; a
non-matching list resolves to none. -/
theorem claim_C5_witness :
    get_genre_id (some [⟨35, "Комедия"⟩, ⟨878, "Фантастика"⟩]) "фантаст" = some 878 ∧
    get_genre_id (some [⟨35, "Комедия"⟩]) "фантаст" = none := by
  have h := claim_C5 pEmptyPage [⟨35, "Комедия"⟩] [⟨35, "Комедия"⟩] []
    ⟨878, "Фантастика"⟩ "фантаст" 0
  exact ⟨h.1 (by decide) (by decide), h.2.1 (by decide)⟩

end MovieBot

namespace MovieBot

/-- Claim C6: on a non-empty candidate page, the orchestrator selects
exactly the first MOVIES_PER_PAGE candidates — a prefix of the page in
provider order — and a page shorter than the limit is processed in full,
still producing a normal result outcome. -/
theorem claim_C6 (p : Provider) (db : DB) (user : Nat) (args : List String)
    (now : Nat) (page : List Candidate) (hargs : args ≠ [])
    (hp : p.searchByTitle (String.intercalate " " args) 1 = some page)
    (hne : page ≠ []) :
    (∃ rest, pageLimit page ++ rest = page) ∧
    (pageLimit page).length = min Config.MOVIES_PER_PAGE page.length ∧
    (page.length ≤ Config.MOVIES_PER_PAGE → pageLimit page = page) ∧
    movie_search_command p db user args now =
      (saveSearchHistory db user "title" (String.intercalate " " args)
        (detailFanout p.getMovieDetails (pageLimit page)) now,
       SearchOutcome.results (detailFanout p.getMovieDetails (pageLimit page))) := by
  have hae : args.isEmpty = false := by
    cases args with
    | nil => exact absurd rfl hargs
    | cons a t => rfl
  have hpe : page.isEmpty = false := by
    cases page with
    | nil => exact absurd rfl hne
    | cons a t => rfl
  refine ⟨⟨page.drop Config.MOVIES_PER_PAGE, List.take_append_drop _ _⟩, ?_, ?_, ?_⟩
  · simp [pageLimit, List.length_take]
  · intro h
    simp [pageLimit, List.take_of_length_le h]
  · simp [movie_search_command, hae, hp, hpe]

/-- Claim C6, witnessed at a concrete input: a one-candidate page (shorter
than the limit of 5) is processed whole. -/
theorem claim_C6_witness :
    pageLimit [cand 1] = [cand 1] ∧
    movie_search_command pAllOk db0 2 ["a"] 0 =
      (saveSearchHistory db0 2 "title" (String.intercalate " " ["a"])
        (detailFanout pAllOk.getMovieDetails (pageLimit [cand 1])) 0,
       SearchOutcome.results (detailFanout pAllOk.getMovieDetails (pageLimit [cand 1]))) := by
  have h := claim_C6 pAllOk db0 2 ["a"] 0 [cand 1] (by decide) rfl (by decide)
  exact ⟨h.2.2.1 (by decide), h.2.2.2⟩

/-- Claim C7: the detail fan-out keeps exactly the candidates whose fetch
succeeded, in order (mapping `some` over its output reproduces the
successful fetches of the per-candidate stream), and when exactly one of
five candidate fetches fails, the snapshot write persists exactly four
rows. -/
theorem claim_C7 (fetch : Nat → Option MovieDetails) (movies : List Candidate)
    (db : DB) (user : Nat) (t q : String) (now : Nat) :
    ((detailFanout fetch movies).map Option.some
      = (movies.map (fun m => fetch m.id)).filter Option.isSome) ∧
    (movies.length = 5 →
      (movies.filter (fun m => (fetch m.id).isNone)).length = 1 →
      (saveSearchHistory db user t q (detailFanout fetch movies) now).movieResults.length
        = db.movieResults.length + 4) := by
  refine ⟨detailFanout_map_some fetch movies, ?_⟩
  intro h5 h1
  have hl := detailFanout_length_add fetch movies
  have h4 : (detailFanout fetch movies).length = 4 := by omega
  simp [saveSearchHistory, h4]

/-- A detail fetch that fails only on movie id 3, for the C7 witness. -/
def fetchOneFails (n : Nat) : Option MovieDetails :=
  if n = 3 then none else some (mdet n)

/-- Five concrete candidates, for the C7 witness. -/
def movies5 : List Candidate := [cand 1, cand 2, cand 3, cand 4, cand 5]

/-- Claim C7, witnessed at a concrete input: one failure among five
candidates gives exactly four persisted rows. -/
theorem claim_C7_witness :
    (saveSearchHistory db0 7 "title" "q" (detailFanout fetchOneFails movies5) 0).movieResults.length
      = db0.movieResults.length + 4 :=
  (claim_C7 fetchOneFails movies5 db0 7 "title" "q" 0).2 (by decide) (by decide)

/-- Claim C8: the snapshot write is all-or-nothing.  Whatever subset of the
row inserts fails, the transaction either leaves the database exactly as it
was, or creates the one entry (result_count = number of movies) together
with one snapshot row per movie; a partial write is not a possible
outcome. -/
theorem claim_C8 (db : DB) (user : Nat) (t q : String) (results : List MovieDetails)
    (now : Nat) (failAt : Nat → Bool) :
    ((saveSearchHistoryAtomic db user t q results now failAt).history = db.history ∧
     (saveSearchHistoryAtomic db user t q results now failAt).movieResults = db.movieResults) ∨
    ((saveSearchHistoryAtomic db user t q results now failAt).history =
       db.history ++ [{ rowid := db.nextEntryId, user := user, search_type := t, query := q,
                        result_count := results.length, created_at := now }] ∧
     (saveSearchHistoryAtomic db user t q results now failAt).movieResults =
       db.movieResults ++ results.map (movieResultOf db.nextEntryId) ∧
     (results.map (movieResultOf db.nextEntryId)).length = results.length) := by
  unfold saveSearchHistoryAtomic
  by_cases h : ((List.range (results.length + 1)).any failAt) = true
  · simp [h]
  · simp [h, saveSearchHistory]

end MovieBot

namespace MovieBot

lemma result_count_bound {e : SearchHistoryRow} {db : DB} {u : Nat} {t q : String}
    {f : Nat → Option MovieDetails} {page : List Candidate} {now : Nat}
    (h : e ∈ (saveSearchHistory db u t q (detailFanout f (pageLimit page)) now).history) :
    e ∈ db.history ∨ e.result_count ≤ Config.MOVIES_PER_PAGE := by
  rcases mem_history_saveSearchHistory h with h1 | h1
  · exact Or.inl h1
  · exact Or.inr (h1 ▸ detailFanout_pageLimit_le f page)

/-- Claim C9: every SearchHistoryEntry any of the four pipeline entry
points adds to the history has result_count at most MOVIES_PER_PAGE (5):
the candidate list is capped before the fan-out and the fan-out only
shrinks it, and the quick-search path saves exactly one movie. -/
theorem claim_C9 (p : Provider) (parseFloat : String → Option ℚ) (db : DB)
    (user : Nat) (args : List String) (bt text : String) (now : Nat) :
    (∀ e ∈ (movie_search_command p db user args now).1.history,
      e ∈ db.history ∨ e.result_count ≤ Config.MOVIES_PER_PAGE) ∧
    (∀ e ∈ (movie_by_rating_command p parseFloat db user args now).1.history,
      e ∈ db.history ∨ e.result_count ≤ Config.MOVIES_PER_PAGE) ∧
    (∀ e ∈ (handle_budget_search p db user args bt now).1.history,
      e ∈ db.history ∨ e.result_count ≤ Config.MOVIES_PER_PAGE) ∧
    (∀ e ∈ (handle_message p db user text now).1.history,
      e ∈ db.history ∨ e.result_count ≤ Config.MOVIES_PER_PAGE) := by
  refine ⟨?_, ?_, ?_, ?_⟩
  · intro e he
    unfold movie_search_command at he
    dsimp only [] at he
    split at he
    · exact Or.inl he
    · split at he
      · exact Or.inl he
      · split at he
        · exact Or.inl he
        · exact result_count_bound he
  · intro e he
    unfold movie_by_rating_command at he
    dsimp only [] at he
    split at he
    · exact Or.inl he
    · split at he
      · exact Or.inl he
      · split at he
        · exact Or.inl he
        · split at he
          · exact Or.inl he
          · exact result_count_bound he
  · intro e he
    unfold handle_budget_search at he
    dsimp only [] at he
    split at he
    · exact Or.inl he
    · split at he
      · exact Or.inl he
      · exact result_count_bound he
  · intro e he
    unfold handle_message at he
    split at he
    · split at he
      · exact Or.inl he
      · split at he
        · exact Or.inl he
        · split at he
          · rcases mem_history_saveSearchHistory he with h1 | h1
            · exact Or.inl h1
            · refine Or.inr (h1 ▸ ?_)
              simp [Config.MOVIES_PER_PAGE]
          · exact Or.inl he
    · exact Or.inl he

/-- Claim C9, witnessed at a concrete input: the entry written when every
detail fetch fails is new and has result_count 0 ≤ 5. -/
theorem claim_C9_witness :
    ({ rowid := 0, user := 7, search_type := "title", query := "q",
       result_count := 0, created_at := 0 } : SearchHistoryRow) ∈ db0.history ∨
    ({ rowid := 0, user := 7, search_type := "title", query := "q",
       result_count := 0, created_at := 0 } : SearchHistoryRow).result_count
      ≤ Config.MOVIES_PER_PAGE :=
  (claim_C9 pAllDetailsFail (fun _ => none) db0 7 ["q"] "low" "t" 0).1
    { rowid := 0, user := 7, search_type := "title", query := "q",
      result_count := 0, created_at := 0 } (by decide)

/-- Claim C10: the plain-text quick-search path ignores messages of length
at most 2 entirely (no provider call — the behaviour of the handler is
independent of the provider — and no write); for a longer message it saves
a one-snapshot entry (result_count = 1) exactly when the detail fetch for
the single top candidate succeeds, and saves nothing when that fetch
fails. -/
theorem claim_C10 (p p2 : Provider) (db : DB) (user : Nat) (text : String) (now : Nat) :
    (text.length ≤ 2 →
      handle_message p db user text now = (db, MessageOutcome.ignored) ∧
      handle_message p db user text now = handle_message p2 db user text now) ∧
    (∀ m rest details, 2 < text.length →
      p.searchByTitle text 1 = some (m :: rest) →
      p.getMovieDetails m.id = some details →
      (handle_message p db user text now).1.history =
        db.history ++ [{ rowid := db.nextEntryId, user := user, search_type := "title",
                         query := text, result_count := 1, created_at := now }] ∧
      (handle_message p db user text now).1.movieResults =
        db.movieResults ++ [movieResultOf db.nextEntryId details]) ∧
    (∀ m rest, 2 < text.length →
      p.searchByTitle text 1 = some (m :: rest) →
      p.getMovieDetails m.id = none →
      handle_message p db user text now = (db, MessageOutcome.detailsFailed)) := by
  refine ⟨?_, ?_, ?_⟩
  · intro hle
    have h : ¬ text.length > 2 := by omega
    exact ⟨by simp [handle_message, h], by simp [handle_message, h]⟩
  · intro m rest details hgt hp hd
    constructor <;> simp [handle_message, hgt, hp, hd, saveSearchHistory]
  · intro m rest hgt hp hd
    simp [handle_message, hgt, hp, hd]

/-- Claim C10, witnessed at a concrete input: a three-character message
whose top-candidate detail fetch succeeds writes a result_count = 1
entry owning exactly one snapshot row. -/
theorem claim_C10_witness :
    (handle_message pAllOk db0 4 "abc" 0).1.history =
      db0.history ++ [{ rowid := 0, user := 4, search_type := "title",
                        query := "abc", result_count := 1, created_at := 0 }] ∧
    (handle_message pAllOk db0 4 "abc" 0).1.movieResults =
      db0.movieResults ++ [movieResultOf 0 (mdet 1)] :=
  (claim_C10 pAllOk pAllOk db0 4 "abc" 0).2.1 (cand 1) [] (mdet 1) (by decide) rfl rfl

end MovieBot
